import Mathlib

/-!
Shallow embedding of the calculator tool server (src/mcp-test-server/main.py)
and the demo tool server (src/mcp-test-server/main-enhanced.py).

Python integers are arbitrary precision, so they are modelled by ℤ; the
arithmetic of the source never raises OverflowError, and the bounds policy
is entirely in check_integer_bounds.  Python floats are modelled by the
inductive type PyFloat: a finite value carried as a real number (the usual
exact idealisation of finite double arithmetic), a distinguished negative
zero, the two infinities and NaN.  Exceptions of the underlying runtime
(ValueError, OverflowError, ZeroDivisionError) are modelled by the Exn
type; a tool returns `Except Exn R` where `.error` means an exception
escaped the tool uncaught, and `R` is the tagged result union of the
source (a number or an error string).
-/

/-- Runtime exceptions that the modelled library calls can raise. -/
inductive Exn : Type where
  | overflowError : Exn
  | valueError : Exn
  | zeroDivisionError : Exn
deriving DecidableEq

/-- Model of a Python float value.  `finite r` covers every finite double
(including positive zero `finite 0`); `negZero` is the IEEE value -0.0;
`inf`, `neginf` and `nan` are the special values.  Finite arithmetic is
exact (real-valued); rounding of finite intermediate results is not
modelled. -/
inductive PyFloat : Type where
  | finite : ℝ → PyFloat
  | negZero : PyFloat
  | inf : PyFloat
  | neginf : PyFloat
  | nan : PyFloat

/-- Result union of a calculator tool returning an int: the value, or a
human readable error string (Union[int, str] in the source). -/
inductive IntRes : Type where
  | num : ℤ → IntRes
  | err : String → IntRes
deriving DecidableEq

/-- Result union of a calculator tool returning a float (Union[float, str]). -/
inductive FloatRes : Type where
  | num : PyFloat → FloatRes
  | err : String → FloatRes

/-- Python comparison `x == 0` on a float `x`: true for both signed zeros,
false for every nonzero value, the infinities and NaN. -/
def pyEqZero : PyFloat → Prop
  | .finite r => r = 0
  | .negZero => True
  | .inf => False
  | .neginf => False
  | .nan => False

noncomputable instance pyEqZero.inst : (x : PyFloat) → Decidable (pyEqZero x)
  | .finite r => inferInstanceAs (Decidable (r = 0))
  | .negZero => .isTrue trivial
  | .inf => .isFalse (fun h => h)
  | .neginf => .isFalse (fun h => h)
  | .nan => .isFalse (fun h => h)

/-- Python comparison `x < 0` on a float `x`: false for both zeros and for
NaN, true for negative finite values and negative infinity. -/
def pyLtZero : PyFloat → Prop
  | .finite r => r < 0
  | .negZero => False
  | .inf => False
  | .neginf => True
  | .nan => False

noncomputable instance pyLtZero.inst : (x : PyFloat) → Decidable (pyLtZero x)
  | .finite r => inferInstanceAs (Decidable (r < 0))
  | .negZero => .isFalse (fun h => h)
  | .inf => .isFalse (fun h => h)
  | .neginf => .isTrue trivial
  | .nan => .isFalse (fun h => h)

/-- Predicate on a real: it is the value of some integer.  Used by the model
of math.pow to decide whether a negative base has an integral exponent. -/
def isIntR (r : ℝ) : Prop := ∃ k : ℤ, (k : ℝ) = r

noncomputable instance isIntR.inst : DecidablePred isIntR :=
  fun _ => Classical.propDecidable _

/-- Predicate on a real: it is the value of some odd integer.  Used by the
model of math.pow for the sign of results at negative zero and negative
infinity bases. -/
def isOddIntR (r : ℝ) : Prop := ∃ k : ℤ, Odd k ∧ (k : ℝ) = r

noncomputable instance isOddIntR.inst : DecidablePred isOddIntR :=
  fun _ => Classical.propDecidable _

/-- Source constant INT_MAX = sys.maxsize on the 64-bit platform. -/
def INT_MAX : ℤ := 2 ^ 63 - 1

/-- Source constant INT_MIN = -sys.maxsize - 1. -/
def INT_MIN : ℤ := -INT_MAX - 1

/-- Overflow message used by the bounds checkers (an f-string in the source,
concatenation here). -/
def overflowMsg (operation : String) : String :=
  "Error: Overflow occurred in " ++ operation ++ ". Result is too large."

/-- Underflow message used by the bounds checkers. -/
def underflowMsg (operation : String) : String :=
  "Error: Underflow occurred in " ++ operation ++ ". Result is too small."

/-- Model of check_integer_bounds from main.py: the value if it lies within
[INT_MIN, INT_MAX], otherwise the underflow or overflow error string. -/
def check_integer_bounds (value : ℤ) (operation : String) : IntRes :=
  if value < INT_MIN then .err (underflowMsg operation)
  else if value > INT_MAX then .err (overflowMsg operation)
  else .num value

/-- Model of check_float_bounds from main.py.  The source compares the value
with float(-inf) and float(inf) using Python equality, which holds exactly
when the value is that infinity; NaN is unequal to both and passes through. -/
def check_float_bounds (value : PyFloat) (operation : String) : FloatRes :=
  match value with
  | .neginf => .err (underflowMsg operation)
  | .inf => .err (overflowMsg operation)
  | v => .num v

/-- Model of the add tool of main.py.  Python integer addition is exact and
never raises OverflowError, so the except branch of the source is
unreachable and the tool always returns normally. -/
def add (a b : ℤ) : Except Exn IntRes :=
  .ok (check_integer_bounds (a + b) "addition")

/-- Model of the subtract tool of main.py. -/
def subtract (a b : ℤ) : Except Exn IntRes :=
  .ok (check_integer_bounds (a - b) "subtraction")

/-- Model of the multiply tool of main.py. -/
def multiply (a b : ℤ) : Except Exn IntRes :=
  .ok (check_integer_bounds (a * b) "multiplication")

/-- Model of the modulo tool of main.py.  The Python operator % on integers
is floored remainder (sign of the divisor), which is Int.fmod; the result is
returned directly, with no bounds check.  Integer % never raises
OverflowError, so the except branch is unreachable. -/
def modulo (a b : ℤ) : Except Exn IntRes :=
  if b = 0 then .ok (.err "Error: Cannot perform modulo with zero divisor.")
  else .ok (.num (Int.fmod a b))

namespace math

/-- Model of math.radians: multiplication by pi / 180.  The conversion keeps
the sign of zero, maps each infinity to itself and NaN to NaN, and never
raises. -/
noncomputable def radians : PyFloat → PyFloat
  | .finite x => .finite (x * Real.pi / 180)
  | .negZero => .negZero
  | .inf => .inf
  | .neginf => .neginf
  | .nan => .nan

/-- Model of math.sqrt: ValueError on a negative argument (including
negative infinity), NaN and negative zero pass through, infinity maps to
infinity, and a non-negative finite argument maps to its exact square
root. -/
noncomputable def sqrt : PyFloat → Except Exn PyFloat
  | .finite x => if x < 0 then .error .valueError else .ok (.finite (Real.sqrt x))
  | .negZero => .ok .negZero
  | .inf => .ok .inf
  | .neginf => .error .valueError
  | .nan => .ok .nan

/-- Model of math.sin: ValueError on an infinite argument (CPython raises a
math domain error there), NaN and negative zero pass through, and a finite
argument maps to its exact sine. -/
noncomputable def sin : PyFloat → Except Exn PyFloat
  | .finite x => .ok (.finite (Real.sin x))
  | .negZero => .ok .negZero
  | .inf => .error .valueError
  | .neginf => .error .valueError
  | .nan => .ok .nan

/-- Model of math.cos: ValueError on an infinite argument, NaN passes
through, cos(-0.0) = 1, and a finite argument maps to its exact cosine. -/
noncomputable def cos : PyFloat → Except Exn PyFloat
  | .finite x => .ok (.finite (Real.cos x))
  | .negZero => .ok (.finite 1)
  | .inf => .error .valueError
  | .neginf => .error .valueError
  | .nan => .ok .nan

/-- Model of math.tan: ValueError on an infinite argument, NaN and negative
zero pass through, and a finite argument maps to the real tangent function.
Near the poles the real function stands in for the large finite double the
runtime produces; no finite argument raises. -/
noncomputable def tan : PyFloat → Except Exn PyFloat
  | .finite x => .ok (.finite (Real.tan x))
  | .negZero => .ok .negZero
  | .inf => .error .valueError
  | .neginf => .error .valueError
  | .nan => .ok .nan

/-- Model of math.pow following the C99 pow special cases as CPython exposes
them: pow(x, ±0) = 1 and pow(1, y) = 1 even for NaN, a zero base with a
negative finite exponent raises ValueError (math domain error), a negative
finite base with a non-integral finite exponent raises ValueError, and the
remaining finite case is the exact real power.  Overflow of an exact finite
result is not modelled (finite arithmetic is exact). -/
noncomputable def pow : PyFloat → PyFloat → Except Exn PyFloat
  | _, .negZero => .ok (.finite 1)
  | .nan, .finite yv => if yv = 0 then .ok (.finite 1) else .ok .nan
  | .nan, _ => .ok .nan
  | .finite xv, .nan => if xv = 1 then .ok (.finite 1) else .ok .nan
  | .negZero, .nan => .ok .nan
  | .inf, .nan => .ok .nan
  | .neginf, .nan => .ok .nan
  | .inf, .finite yv =>
      if yv = 0 then .ok (.finite 1)
      else if yv > 0 then .ok .inf
      else .ok (.finite 0)
  | .inf, .inf => .ok .inf
  | .inf, .neginf => .ok (.finite 0)
  | .neginf, .finite yv =>
      if yv = 0 then .ok (.finite 1)
      else if yv > 0 then (if isOddIntR yv then .ok .neginf else .ok .inf)
      else (if isOddIntR yv then .ok .negZero else .ok (.finite 0))
  | .neginf, .inf => .ok .inf
  | .neginf, .neginf => .ok (.finite 0)
  | .negZero, .finite yv =>
      if yv = 0 then .ok (.finite 1)
      else if yv > 0 then (if isOddIntR yv then .ok .negZero else .ok (.finite 0))
      else .error .valueError
  | .negZero, .inf => .ok (.finite 0)
  | .negZero, .neginf => .ok .inf
  | .finite xv, .finite yv =>
      if yv = 0 then .ok (.finite 1)
      else if xv = 1 then .ok (.finite 1)
      else if xv = 0 then (if yv > 0 then .ok (.finite 0) else .error .valueError)
      else if xv < 0 ∧ ¬ isIntR yv then .error .valueError
      else .ok (.finite (Real.rpow xv yv))
  | .finite xv, .inf =>
      if xv = 1 ∨ xv = -1 then .ok (.finite 1)
      else if 1 < |xv| then .ok .inf
      else .ok (.finite 0)
  | .finite xv, .neginf =>
      if xv = 1 ∨ xv = -1 then .ok (.finite 1)
      else if 1 < |xv| then .ok (.finite 0)
      else .ok .inf

end math

/-- Model of the raw Python float division `numerator / denominator`: it
raises ZeroDivisionError for every denominator comparing equal to zero
(both signed zeros), propagates NaN, gives NaN for infinity over infinity,
signed infinities over finite values, signed zeros over infinities, and the
exact real quotient of finite operands (with the IEEE sign of a zero
numerator result). -/
noncomputable def pyDivRaw : PyFloat → PyFloat → Except Exn PyFloat
  | _, .negZero => .error .zeroDivisionError
  | x, .finite b =>
      if b = 0 then .error .zeroDivisionError
      else
        match x with
        | .finite a => if a = 0 ∧ b < 0 then .ok .negZero else .ok (.finite (a / b))
        | .negZero => if b < 0 then .ok (.finite 0) else .ok .negZero
        | .inf => if b < 0 then .ok .neginf else .ok .inf
        | .neginf => if b < 0 then .ok .inf else .ok .neginf
        | .nan => .ok .nan
  | .nan, _ => .ok .nan
  | _, .nan => .ok .nan
  | .inf, .inf => .ok .nan
  | .inf, .neginf => .ok .nan
  | .neginf, .inf => .ok .nan
  | .neginf, .neginf => .ok .nan
  | .finite a, .inf => if a < 0 then .ok .negZero else .ok (.finite 0)
  | .finite a, .neginf => if a < 0 then .ok (.finite 0) else .ok .negZero
  | .negZero, .inf => .ok .negZero
  | .negZero, .neginf => .ok (.finite 0)

/-- Model of the divide tool of main.py: the guard `denominator == 0`
returns the divide-by-zero string before the division is attempted, the
division result goes through check_float_bounds, a raised OverflowError
would be turned into the division overflow string, and any other exception
escapes.  The guard makes the ZeroDivisionError of the raw division
unreachable. -/
noncomputable def divide (numerator denominator : PyFloat) : Except Exn FloatRes :=
  if pyEqZero denominator then .ok (.err "Error: Cannot divide by zero.")
  else
    match pyDivRaw numerator denominator with
    | .ok result => .ok (check_float_bounds result "division")
    | .error .overflowError => .ok (.err "Error: Overflow occurred in division.")
    | .error e => .error e

/-- Model of the power tool of main.py: math.pow, then check_float_bounds;
a raised OverflowError becomes the exponentiation overflow string; the
ValueError cases of math.pow are not caught and escape. -/
noncomputable def power (base exponent : PyFloat) : Except Exn FloatRes :=
  match math.pow base exponent with
  | .ok result => .ok (check_float_bounds result "exponentiation")
  | .error .overflowError =>
      .ok (.err "Error: Overflow occurred in exponentiation. Result is too large.")
  | .error e => .error e

/-- Model of the square_root tool of main.py: the guard `number < 0` returns
the negative-input string before computing, the square root is returned
directly with no bounds check, and a raised OverflowError would become the
square root overflow string.  The guard makes the ValueError of math.sqrt
unreachable. -/
noncomputable def square_root (number : PyFloat) : Except Exn FloatRes :=
  if pyLtZero number then
    .ok (.err "Error: Cannot calculate the square root of a negative number.")
  else
    match math.sqrt number with
    | .ok result => .ok (.num result)
    | .error .overflowError =>
        .ok (.err "Error: Overflow occurred in square root calculation.")
    | .error e => .error e

/-- Model of the sine tool of main.py: degrees to radians, math.sin, then
check_float_bounds.  Only OverflowError is caught; the ValueError that
math.sin raises on an infinite angle escapes. -/
noncomputable def sine (angle_degrees : PyFloat) : Except Exn FloatRes :=
  match math.sin (math.radians angle_degrees) with
  | .ok result => .ok (check_float_bounds result "sine calculation")
  | .error .overflowError => .ok (.err "Error: Overflow occurred in sine calculation.")
  | .error e => .error e

/-- Model of the cosine tool of main.py, analogous to sine. -/
noncomputable def cosine (angle_degrees : PyFloat) : Except Exn FloatRes :=
  match math.cos (math.radians angle_degrees) with
  | .ok result => .ok (check_float_bounds result "cosine calculation")
  | .error .overflowError => .ok (.err "Error: Overflow occurred in cosine calculation.")
  | .error e => .error e

/-- Model of the tangent tool of main.py: unlike sine and cosine it also
catches ValueError and turns it into the invalid-input string. -/
noncomputable def tangent (angle_degrees : PyFloat) : Except Exn FloatRes :=
  match math.tan (math.radians angle_degrees) with
  | .ok result => .ok (check_float_bounds result "tangent calculation")
  | .error .overflowError => .ok (.err "Error: Overflow occurred in tangent calculation.")
  | .error .valueError => .ok (.err "Error: Invalid input for tangent calculation.")
  | .error e => .error e

namespace Demo

/-- Model of the add tool of main-enhanced.py: bare integer addition, no
bounds check. -/
def add (a b : ℤ) : ℤ := a + b

/-- Model of the multiply tool of main-enhanced.py. -/
def multiply (a b : ℤ) : ℤ := a * b

/-- Model of the random_number tool of main-enhanced.py.  random.randint
raises ValueError when min_val > max_val and otherwise returns a value of
the inclusive range; the extra argument `draw` stands for the output of the
random number generator and is folded into the range, so every value of the
range is reachable and nothing outside it is. -/
def random_number (min_val max_val draw : ℤ) : Except Exn ℤ :=
  if min_val ≤ max_val then .ok (min_val + Int.emod draw (max_val - min_val + 1))
  else .error .valueError

/-- Model of the calculate_circle_area tool of main-enhanced.py: pi times
radius squared, with the float specials following IEEE multiplication. -/
noncomputable def calculate_circle_area : PyFloat → PyFloat
  | .finite radius => .finite (Real.pi * radius * radius)
  | .negZero => .finite 0
  | .inf => .inf
  | .neginf => .inf
  | .nan => .nan

/-- Model of the to_uppercase tool of main-enhanced.py at the ASCII level. -/
def to_uppercase (text : String) : String := text.toUpper

end Demo

/-- Inputs on which the model of math.pow raises ValueError (a CPython math
domain error): a base comparing equal to zero with a negative finite
exponent, or a negative finite base with a non-integral finite exponent. -/
def powFault : PyFloat → PyFloat → Prop
  | .negZero, .finite yv => yv < 0
  | .finite xv, .finite yv => (xv = 0 ∧ yv < 0) ∨ (xv < 0 ∧ ¬ isIntR yv)
  | _, _ => False

/-! Helper lemmas shared by the claim theorems. -/

theorem INT_bounds_concrete : INT_MIN ≤ 0 ∧ (0:ℤ) ≤ INT_MAX ∧ INT_MIN < INT_MAX := by
  refine ⟨by decide, by decide, by decide⟩

theorem check_integer_bounds_spec (v : ℤ) (op : String) :
    (INT_MIN ≤ v → v ≤ INT_MAX → check_integer_bounds v op = .num v)
    ∧ (v > INT_MAX → check_integer_bounds v op = .err (overflowMsg op))
    ∧ (v < INT_MIN → check_integer_bounds v op = .err (underflowMsg op)) := by
  have hlt := INT_bounds_concrete.2.2
  unfold check_integer_bounds
  refine ⟨fun h1 h2 => ?_, fun h => ?_, fun h => ?_⟩
  · rw [if_neg (by omega), if_neg (by omega)]
  · rw [if_neg (by omega), if_pos h]
  · rw [if_pos h]

theorem fmod_neg_bounds (a : ℤ) {b : ℤ} (hb : b < 0) :
    b < a.fmod b ∧ a.fmod b ≤ 0 := by
  cases b with
  | ofNat n => exact absurd hb (Int.not_lt.mpr (Int.ofNat_nonneg n))
  | negSucc n =>
    cases a with
    | ofNat k =>
      cases k with
      | zero =>
        rw [show Int.fmod (Int.ofNat 0) (Int.negSucc n) = 0 from rfl, Int.negSucc_eq]
        omega
      | succ k =>
        have h1 : k % (n+1) < n + 1 := Nat.mod_lt _ (Nat.succ_pos n)
        rw [show Int.fmod (Int.ofNat (k+1)) (Int.negSucc n)
              = Int.subNatNat (k % (n+1)) n from rfl,
          Int.subNatNat_eq_coe, Int.negSucc_eq]
        omega
    | negSucc m =>
      have h1 : (m+1) % (n+1) < n + 1 := Nat.mod_lt _ (Nat.succ_pos n)
      rw [show Int.fmod (Int.negSucc m) (Int.negSucc n)
            = -(((m+1) % (n+1) : ℕ) : ℤ) from rfl,
        Int.negSucc_eq]
      omega

/-! Claim theorems. -/

/-- C1: for integers a and b within the representable range, add returns the
exact sum when it lies in [INT_MIN, INT_MAX] and otherwise the overflow
(sum above INT_MAX) or underflow (sum below INT_MIN) error string; subtract
and multiply behave the same way for the exact difference and product. -/
theorem C1_int_ops_exact_or_bounds_error (a b : ℤ)
    (ha1 : INT_MIN ≤ a) (ha2 : a ≤ INT_MAX) (hb1 : INT_MIN ≤ b) (hb2 : b ≤ INT_MAX) :
    ((INT_MIN ≤ a + b ∧ a + b ≤ INT_MAX → add a b = .ok (.num (a + b)))
      ∧ (a + b > INT_MAX → add a b = .ok (.err (overflowMsg "addition")))
      ∧ (a + b < INT_MIN → add a b = .ok (.err (underflowMsg "addition"))))
    ∧ ((INT_MIN ≤ a - b ∧ a - b ≤ INT_MAX → subtract a b = .ok (.num (a - b)))
      ∧ (a - b > INT_MAX → subtract a b = .ok (.err (overflowMsg "subtraction")))
      ∧ (a - b < INT_MIN → subtract a b = .ok (.err (underflowMsg "subtraction"))))
    ∧ ((INT_MIN ≤ a * b ∧ a * b ≤ INT_MAX → multiply a b = .ok (.num (a * b)))
      ∧ (a * b > INT_MAX → multiply a b = .ok (.err (overflowMsg "multiplication")))
      ∧ (a * b < INT_MIN → multiply a b = .ok (.err (underflowMsg "multiplication")))) := by
  refine ⟨⟨fun h => ?_, fun h => ?_, fun h => ?_⟩,
    ⟨fun h => ?_, fun h => ?_, fun h => ?_⟩, ⟨fun h => ?_, fun h => ?_, fun h => ?_⟩⟩
  · exact congrArg Except.ok ((check_integer_bounds_spec (a + b) "addition").1 h.1 h.2)
  · exact congrArg Except.ok ((check_integer_bounds_spec (a + b) "addition").2.1 h)
  · exact congrArg Except.ok ((check_integer_bounds_spec (a + b) "addition").2.2 h)
  · exact congrArg Except.ok ((check_integer_bounds_spec (a - b) "subtraction").1 h.1 h.2)
  · exact congrArg Except.ok ((check_integer_bounds_spec (a - b) "subtraction").2.1 h)
  · exact congrArg Except.ok ((check_integer_bounds_spec (a - b) "subtraction").2.2 h)
  · exact congrArg Except.ok ((check_integer_bounds_spec (a * b) "multiplication").1 h.1 h.2)
  · exact congrArg Except.ok ((check_integer_bounds_spec (a * b) "multiplication").2.1 h)
  · exact congrArg Except.ok ((check_integer_bounds_spec (a * b) "multiplication").2.2 h)

/-- C1 witness: concrete in-range sum and a concrete overflowing product. -/
theorem C1_int_ops_exact_or_bounds_error_witness :
    add 5 3 = .ok (.num 8)
    ∧ multiply INT_MAX 2 = .ok (.err (overflowMsg "multiplication")) :=
  ⟨(C1_int_ops_exact_or_bounds_error 5 3 (by decide) (by decide) (by decide)
      (by decide)).1.1 ⟨by decide, by decide⟩,
   (C1_int_ops_exact_or_bounds_error INT_MAX 2 (by decide) (by decide) (by decide)
      (by decide)).2.2.2.1 (by decide)⟩

/-- C6: the bounds-check helpers return the value unchanged exactly on the
representable range and otherwise the exact overflow or underflow message;
for floats, out of range holds if and only if the value is positive or
negative infinity (NaN passes through). -/
theorem C6_bounds_checkers (v : ℤ) (x : PyFloat) (op : String) :
    (INT_MIN ≤ v → v ≤ INT_MAX → check_integer_bounds v op = .num v)
    ∧ (v > INT_MAX → check_integer_bounds v op =
        .err ("Error: Overflow occurred in " ++ op ++ ". Result is too large."))
    ∧ (v < INT_MIN → check_integer_bounds v op =
        .err ("Error: Underflow occurred in " ++ op ++ ". Result is too small."))
    ∧ (check_float_bounds x op = .num x ↔ (x ≠ .inf ∧ x ≠ .neginf))
    ∧ (check_float_bounds .inf op =
        .err ("Error: Overflow occurred in " ++ op ++ ". Result is too large."))
    ∧ (check_float_bounds .neginf op =
        .err ("Error: Underflow occurred in " ++ op ++ ". Result is too small.")) := by
  refine ⟨fun h1 h2 => (check_integer_bounds_spec v op).1 h1 h2,
    fun h => (check_integer_bounds_spec v op).2.1 h,
    fun h => (check_integer_bounds_spec v op).2.2 h, ?_, rfl, rfl⟩
  cases x <;> simp [check_float_bounds]

/-- C6 witness: an in-range integer is returned unchanged and NaN passes the
float bounds check. -/
theorem C6_bounds_checkers_witness :
    check_integer_bounds 7 "addition" = .num 7
    ∧ check_float_bounds .nan "division" = .num .nan :=
  ⟨(C6_bounds_checkers 7 .nan "addition").1 (by decide) (by decide),
   ((C6_bounds_checkers 7 .nan "division").2.2.2.1).mpr ⟨by simp, by simp⟩⟩

/-- C3 counterexample: with the out-of-range operands a = 2^63 and
b = 2^63 + 1 (divisor nonzero), modulo returns the raw integer 2^63, which
lies above INT_MAX, and not an overflow error string: the source applies no
bounds check to the remainder. -/
theorem C3_counterexample :
    modulo (2 ^ 63) (2 ^ 63 + 1) = .ok (.num (2 ^ 63)) ∧ (2 ^ 63 : ℤ) > INT_MAX := by
  refine ⟨?_, by decide⟩
  rw [modulo, if_neg (by decide), show Int.fmod (2 ^ 63) (2 ^ 63 + 1) = 2 ^ 63 from by decide]

/-- C3 amended: modulo with zero divisor returns the zero-divisor error for
every integer, and for operands within the representable range with a
nonzero divisor it returns the floored remainder, which always lies within
[INT_MIN, INT_MAX]; no overflow error is ever produced, and out-of-range
operands can yield an out-of-range integer result. -/
theorem C3_modulo_amended (x a b : ℤ)
    (ha1 : INT_MIN ≤ a) (ha2 : a ≤ INT_MAX) (hb1 : INT_MIN ≤ b) (hb2 : b ≤ INT_MAX)
    (hb : b ≠ 0) :
    modulo x 0 = .ok (.err "Error: Cannot perform modulo with zero divisor.")
    ∧ modulo a b = .ok (.num (Int.fmod a b))
    ∧ INT_MIN ≤ Int.fmod a b ∧ Int.fmod a b ≤ INT_MAX := by
  have h0 := INT_bounds_concrete
  refine ⟨by rw [modulo, if_pos rfl], by rw [modulo, if_neg hb], ?_, ?_⟩
  · rcases lt_or_gt_of_ne hb with hneg | hpos
    · have := fmod_neg_bounds a hneg
      omega
    · have h1 := Int.fmod_nonneg' a hpos
      omega
  · rcases lt_or_gt_of_ne hb with hneg | hpos
    · have := fmod_neg_bounds a hneg
      omega
    · have h1 := Int.fmod_lt_of_pos a hpos
      omega

/-- C3 witness: zero divisor at x = 5, and the in-range pair (-7, 3). -/
theorem C3_modulo_amended_witness :
    modulo 5 0 = .ok (.err "Error: Cannot perform modulo with zero divisor.")
    ∧ modulo (-7) 3 = .ok (.num 2) :=
  ⟨(C3_modulo_amended 5 (-7) 3 (by decide) (by decide) (by decide) (by decide)
      (by decide)).1,
   (C3_modulo_amended 5 (-7) 3 (by decide) (by decide) (by decide) (by decide)
      (by decide)).2.1⟩

/-- C10: for a nonzero divisor the integer returned by modulo is the floored
remainder, with the sign of the divisor: 0 ≤ r < b when b > 0 and
b < r ≤ 0 when b < 0. -/
theorem C10_modulo_floored_sign (a b : ℤ) (hb : b ≠ 0) :
    modulo a b = .ok (.num (Int.fmod a b))
    ∧ (0 < b → 0 ≤ Int.fmod a b ∧ Int.fmod a b < b)
    ∧ (b < 0 → b < Int.fmod a b ∧ Int.fmod a b ≤ 0) :=
  ⟨by rw [modulo, if_neg hb],
   fun h => ⟨Int.fmod_nonneg' a h, Int.fmod_lt_of_pos a h⟩,
   fun h => fmod_neg_bounds a h⟩

/-- C10 witness: modulo (-7) 3 returns 2, not -1, and 2 lies in [0, 3). -/
theorem C10_modulo_floored_sign_witness :
    modulo (-7) 3 = .ok (.num 2)
    ∧ (0 ≤ Int.fmod (-7) 3 ∧ Int.fmod (-7) 3 < 3) :=
  ⟨(C10_modulo_floored_sign (-7) 3 (by decide)).1,
   (C10_modulo_floored_sign (-7) 3 (by decide)).2.1 (by decide)⟩

/-- C8: every embedded operation other than random_number and current_time
is a pure function of its arguments: two calls with identical inputs give
identical outputs. -/
theorem C8_determinism :
    (∀ a b : ℤ, add a b = add a b) ∧ (∀ a b : ℤ, subtract a b = subtract a b)
    ∧ (∀ a b : ℤ, multiply a b = multiply a b) ∧ (∀ a b : ℤ, modulo a b = modulo a b)
    ∧ (∀ x d : PyFloat, divide x d = divide x d)
    ∧ (∀ x y : PyFloat, power x y = power x y)
    ∧ (∀ x : PyFloat, square_root x = square_root x)
    ∧ (∀ x : PyFloat, sine x = sine x) ∧ (∀ x : PyFloat, cosine x = cosine x)
    ∧ (∀ x : PyFloat, tangent x = tangent x)
    ∧ (∀ a b : ℤ, Demo.add a b = Demo.add a b)
    ∧ (∀ a b : ℤ, Demo.multiply a b = Demo.multiply a b)
    ∧ (∀ x : PyFloat, Demo.calculate_circle_area x = Demo.calculate_circle_area x)
    ∧ (∀ t : String, Demo.to_uppercase t = Demo.to_uppercase t) :=
  ⟨fun _ _ => rfl, fun _ _ => rfl, fun _ _ => rfl, fun _ _ => rfl, fun _ _ => rfl,
   fun _ _ => rfl, fun _ => rfl, fun _ => rfl, fun _ => rfl, fun _ => rfl,
   fun _ _ => rfl, fun _ _ => rfl, fun _ => rfl, fun _ => rfl⟩

/-- C9: the float bounds check passes NaN through unchanged for every
operation name, and divide with both operands infinite returns NaN as a
successful numeric result rather than an error string. -/
theorem C9_nan_passes_bounds_check :
    (∀ op : String, check_float_bounds .nan op = .num .nan)
    ∧ divide .inf .inf = .ok (.num .nan) :=
  ⟨fun _ => rfl, by
    rw [divide, if_neg (show ¬ pyEqZero PyFloat.inf from fun h => h)]
    rfl⟩

theorem pyDivRaw_ok (x d : PyFloat) (hd : ¬ pyEqZero d) : ∃ q, pyDivRaw x d = .ok q := by
  cases d with
  | negZero => exact absurd trivial hd
  | finite b =>
    have hb : b ≠ 0 := hd
    cases x <;> simp only [pyDivRaw, if_neg hb] <;>
      first
        | exact ⟨_, rfl⟩
        | (split <;> exact ⟨_, rfl⟩)
  | inf =>
    cases x <;> first
      | exact ⟨_, rfl⟩
      | (simp only [pyDivRaw]; split <;> exact ⟨_, rfl⟩)
  | neginf =>
    cases x <;> first
      | exact ⟨_, rfl⟩
      | (simp only [pyDivRaw]; split <;> exact ⟨_, rfl⟩)
  | nan => cases x <;> exact ⟨_, rfl⟩

theorem mathSqrt_ok (x : PyFloat) (h : ¬ pyLtZero x) : ∃ v, math.sqrt x = .ok v := by
  cases x with
  | finite r =>
    exact ⟨.finite (Real.sqrt r), by simp only [math.sqrt]; rw [if_neg (show ¬ r < 0 from h)]⟩
  | negZero => exact ⟨_, rfl⟩
  | inf => exact ⟨_, rfl⟩
  | neginf => exact absurd trivial h
  | nan => exact ⟨_, rfl⟩

theorem mathTan_ok_or_value (y : PyFloat) :
    (∃ v, math.tan y = .ok v) ∨ math.tan y = .error .valueError := by
  cases y with
  | finite r => exact Or.inl ⟨_, rfl⟩
  | negZero => exact Or.inl ⟨_, rfl⟩
  | inf => exact Or.inr rfl
  | neginf => exact Or.inr rfl
  | nan => exact Or.inl ⟨_, rfl⟩

theorem mathPow_ok (x y : PyFloat) (h : ¬ powFault x y) : ∃ v, math.pow x y = .ok v := by
  cases x with
  | nan =>
    cases y <;> simp only [math.pow] <;>
      first
        | exact ⟨_, rfl⟩
        | (split <;> exact ⟨_, rfl⟩)
  | inf =>
    cases y <;> simp only [math.pow] <;>
      first
        | exact ⟨_, rfl⟩
        | ((repeat' split) <;> exact ⟨_, rfl⟩)
  | neginf =>
    cases y <;> simp only [math.pow] <;>
      first
        | exact ⟨_, rfl⟩
        | ((repeat' split) <;> exact ⟨_, rfl⟩)
  | negZero =>
    cases y with
    | finite yv =>
      simp only [powFault] at h
      have hy : 0 ≤ yv := not_lt.mp h
      simp only [math.pow]
      rcases eq_or_lt_of_le hy with he | hlt
      · rw [if_pos he.symm]
        exact ⟨_, rfl⟩
      · rw [if_neg (by linarith), if_pos hlt]
        split <;> exact ⟨_, rfl⟩
    | negZero => exact ⟨_, rfl⟩
    | inf => exact ⟨_, rfl⟩
    | neginf => exact ⟨_, rfl⟩
    | nan => exact ⟨_, rfl⟩
  | finite xv =>
    cases y with
    | finite yv =>
      simp only [powFault] at h
      have hA : ¬ (xv = 0 ∧ yv < 0) := fun hc => h (Or.inl hc)
      have hB : ¬ (xv < 0 ∧ ¬ isIntR yv) := fun hc => h (Or.inr hc)
      simp only [math.pow]
      by_cases h0 : yv = 0
      · rw [if_pos h0]
        exact ⟨_, rfl⟩
      · rw [if_neg h0]
        by_cases h1 : xv = 1
        · rw [if_pos h1]
          exact ⟨_, rfl⟩
        · rw [if_neg h1]
          by_cases h2 : xv = 0
          · rw [if_pos h2]
            have hy : ¬ yv < 0 := fun hlt => hA ⟨h2, hlt⟩
            rw [if_pos (lt_of_le_of_ne (not_lt.mp hy) (Ne.symm h0))]
            exact ⟨_, rfl⟩
          · rw [if_neg h2, if_neg hB]
            exact ⟨_, rfl⟩
    | negZero => exact ⟨_, rfl⟩
    | inf =>
      simp only [math.pow]
      (repeat' split) <;> exact ⟨_, rfl⟩
    | neginf =>
      simp only [math.pow]
      (repeat' split) <;> exact ⟨_, rfl⟩
    | nan =>
      simp only [math.pow]
      split <;> exact ⟨_, rfl⟩

/-- C5: divide returns the divide-by-zero error string for every denominator
comparing equal to zero, including negative zero, before the division is
attempted (no ZeroDivisionError escapes); for every other denominator the
quotient is computed and passed through the float bounds check. -/
theorem C5_divide_zero_guard (x d : PyFloat) :
    (pyEqZero d → divide x d = .ok (.err "Error: Cannot divide by zero."))
    ∧ (¬ pyEqZero d →
        ∃ q, pyDivRaw x d = .ok q ∧ divide x d = .ok (check_float_bounds q "division")) := by
  refine ⟨fun h => by rw [divide, if_pos h], fun h => ?_⟩
  obtain ⟨q, hq⟩ := pyDivRaw_ok x d h
  refine ⟨q, hq, ?_⟩
  rw [divide, if_neg h, hq]

/-- C5 witness: the denominator -0.0 compares equal to zero and triggers the
guard, and a nonzero denominator reaches the bounds check. -/
theorem C5_divide_zero_guard_witness :
    divide (.finite 1) .negZero = .ok (.err "Error: Cannot divide by zero.")
    ∧ divide (.finite 1) .inf = .ok (check_float_bounds (.finite 0) "division") := by
  refine ⟨(C5_divide_zero_guard (.finite 1) .negZero).1 trivial, ?_⟩
  obtain ⟨q, hq, hdiv⟩ := (C5_divide_zero_guard (.finite 1) .inf).2 (fun h => h)
  have hq0 : pyDivRaw (.finite 1) .inf = .ok (.finite 0) := by
    simp only [pyDivRaw]
    rw [if_neg (by norm_num)]
  have hqeq : q = .finite 0 := Except.ok.inj (hq.symm.trans hq0)
  rw [hdiv, hqeq]

/-- C7: square_root returns the negative-input error string for every
negative float (before computing), and for every non-negative finite float
it returns the non-negative square root; in particular square_root 16 is
4.0. -/
theorem C7_square_root_spec (r : ℝ) :
    (r < 0 → square_root (.finite r) =
      .ok (.err "Error: Cannot calculate the square root of a negative number."))
    ∧ (0 ≤ r → square_root (.finite r) = .ok (.num (.finite (Real.sqrt r)))
        ∧ 0 ≤ Real.sqrt r)
    ∧ square_root .neginf =
        .ok (.err "Error: Cannot calculate the square root of a negative number.")
    ∧ square_root (.finite 16) = .ok (.num (.finite 4)) := by
  have hgen : ∀ s : ℝ, 0 ≤ s →
      square_root (.finite s) = .ok (.num (.finite (Real.sqrt s))) := by
    intro s hs
    rw [square_root, if_neg (show ¬ pyLtZero (.finite s) from not_lt.mpr hs)]
    simp only [math.sqrt]
    rw [if_neg (not_lt.mpr hs)]
  refine ⟨fun h => ?_, fun h => ⟨hgen r h, Real.sqrt_nonneg r⟩, ?_, ?_⟩
  · rw [square_root, if_pos (show pyLtZero (.finite r) from h)]
  · rw [square_root, if_pos (show pyLtZero .neginf from trivial)]
  · rw [hgen 16 (by norm_num), show Real.sqrt 16 = 4 from by
      rw [show (16:ℝ) = 4 ^ 2 by norm_num, Real.sqrt_sq (by norm_num)]]

/-- C7 witness: the spec examples, square_root at -1 and at 16. -/
theorem C7_square_root_spec_witness :
    square_root (.finite (-1)) =
      .ok (.err "Error: Cannot calculate the square root of a negative number.")
    ∧ square_root (.finite 16) = .ok (.num (.finite 4)) :=
  ⟨(C7_square_root_spec (-1)).1 (by norm_num), (C7_square_root_spec 0).2.2.2⟩

/-- C4 counterexample: at the asymptotic angle 90.0 the tangent tool returns
a numeric result, never the invalid-input error string or any other error
string; in the runtime math.radians rounds pi divided by 2 and math.tan of
any finite double is finite and raises nothing. -/
theorem C4_counterexample :
    tangent (.finite 90) = .ok (.num (.finite (Real.tan (90 * Real.pi / 180))))
    ∧ tangent (.finite 90) ≠ .ok (.err "Error: Invalid input for tangent calculation.") := by
  have h : tangent (.finite 90) = .ok (.num (.finite (Real.tan (90 * Real.pi / 180)))) := rfl
  refine ⟨h, fun hs => ?_⟩
  rw [h] at hs
  exact FloatRes.noConfusion (Except.ok.inj hs)

/-- C4 amended: the invalid-input error of tangent, distinct from the
overflow error, is produced exactly by the ValueError of the underlying
computation, which occurs for an infinite angle and not at finite
asymptotic angles such as 90.0: tangent of either infinity returns the
invalid-input string. -/
theorem C4_tangent_invalid_input_amended :
    tangent .inf = .ok (.err "Error: Invalid input for tangent calculation.")
    ∧ tangent .neginf = .ok (.err "Error: Invalid input for tangent calculation.")
    ∧ ("Error: Invalid input for tangent calculation." ≠
        "Error: Overflow occurred in tangent calculation.")
    ∧ ("Error: Invalid input for tangent calculation." ≠ overflowMsg "tangent calculation") :=
  ⟨rfl, rfl, by decide, by decide⟩

/-- C2 counterexample: random_number with min_val = 5 and max_val = 1 raises
ValueError (random.randint rejects an empty range), and power with base 0.0
and exponent -1.0 raises ValueError (a math.pow domain error the power tool
does not catch); neither call returns a value. -/
theorem C2_counterexample :
    Demo.random_number 5 1 0 = .error .valueError
    ∧ power (.finite 0) (.finite (-1)) = .error .valueError := by
  refine ⟨rfl, ?_⟩
  have hp : math.pow (.finite 0) (.finite (-1)) = .error .valueError := by
    norm_num [math.pow]
  rw [power, hp]

/-- C2 amended: every operation of both tool sets returns a value for every
input of its declared parameter types, except that random_number raises
when min_val > max_val, power raises on the math.pow domain faults (a base
comparing equal to zero with a negative finite exponent, or a negative
finite base with a non-integral finite exponent), and sine and cosine raise
on an infinite angle. -/
theorem C2_totality_amended :
    (∀ a b : ℤ, ∃ r, add a b = .ok r)
    ∧ (∀ a b : ℤ, ∃ r, subtract a b = .ok r)
    ∧ (∀ a b : ℤ, ∃ r, multiply a b = .ok r)
    ∧ (∀ a b : ℤ, ∃ r, modulo a b = .ok r)
    ∧ (∀ x d : PyFloat, ∃ r, divide x d = .ok r)
    ∧ (∀ x : PyFloat, ∃ r, square_root x = .ok r)
    ∧ (∀ x : PyFloat, ∃ r, tangent x = .ok r)
    ∧ (∀ x : PyFloat, x ≠ .inf → x ≠ .neginf → ∃ r, sine x = .ok r)
    ∧ (∀ x : PyFloat, x ≠ .inf → x ≠ .neginf → ∃ r, cosine x = .ok r)
    ∧ (∀ x y : PyFloat, ¬ powFault x y → ∃ r, power x y = .ok r)
    ∧ (∀ mn mx draw : ℤ, mn ≤ mx → ∃ r, Demo.random_number mn mx draw = .ok r) := by
  refine ⟨fun a b => ⟨_, rfl⟩, fun a b => ⟨_, rfl⟩, fun a b => ⟨_, rfl⟩,
    fun a b => ?_, fun x d => ?_, fun x => ?_, fun x => ?_,
    fun x h1 h2 => ?_, fun x h1 h2 => ?_, fun x y hf => ?_, fun mn mx draw h => ?_⟩
  · unfold modulo
    split <;> exact ⟨_, rfl⟩
  · by_cases hd : pyEqZero d
    · exact ⟨_, by rw [divide, if_pos hd]⟩
    · obtain ⟨q, hq⟩ := pyDivRaw_ok x d hd
      exact ⟨_, by rw [divide, if_neg hd, hq]⟩
  · by_cases hx : pyLtZero x
    · exact ⟨_, by rw [square_root, if_pos hx]⟩
    · obtain ⟨v, hv⟩ := mathSqrt_ok x hx
      exact ⟨_, by rw [square_root, if_neg hx, hv]⟩
  · rcases mathTan_ok_or_value (math.radians x) with ⟨v, hv⟩ | hv
    · exact ⟨_, by rw [tangent, hv]⟩
    · exact ⟨_, by rw [tangent, hv]⟩
  · cases x with
    | finite r => exact ⟨_, rfl⟩
    | negZero => exact ⟨_, rfl⟩
    | inf => exact absurd rfl h1
    | neginf => exact absurd rfl h2
    | nan => exact ⟨_, rfl⟩
  · cases x with
    | finite r => exact ⟨_, rfl⟩
    | negZero => exact ⟨_, rfl⟩
    | inf => exact absurd rfl h1
    | neginf => exact absurd rfl h2
    | nan => exact ⟨_, rfl⟩
  · obtain ⟨v, hv⟩ := mathPow_ok x y hf
    exact ⟨_, by rw [power, hv]⟩
  · exact ⟨_, by rw [Demo.random_number, if_pos h]⟩

/-- C2 witness: concrete returning calls of sine, power and random_number. -/
theorem C2_totality_amended_witness :
    (∃ r, sine (.finite 0) = .ok r)
    ∧ (∃ r, power (.finite 2) (.finite 3) = .ok r)
    ∧ (∃ r, Demo.random_number 1 6 10 = .ok r) :=
  ⟨C2_totality_amended.2.2.2.2.2.2.2.1 (.finite 0) (by simp) (by simp),
   C2_totality_amended.2.2.2.2.2.2.2.2.2.1 (.finite 2) (.finite 3)
     (by simp only [powFault]; norm_num),
   C2_totality_amended.2.2.2.2.2.2.2.2.2.2 1 6 10 (by decide)⟩
